import Mathlib

/-!
Shallow embedding of the Ansible module dcm4chee_device (src/dcm4chee_device.py).

The module manages a DICOM device on a DCM4CHEE archive server through an
HTTP/JSON API.  The embedding models:

* JSON values (the result of json.loads / the input of json.dumps) as a small
  inductive type `Json`;
* the `Device` value object with its four attributes, its JSON serialization
  `Device.to_json` and parser `Device.from_json`, and its `__eq__` / `__ne__`
  comparisons `Device.eqDev` / `Device.neDev`;
* the `DeviceAPI` client.  The HTTP transport (urllib2.urlopen) is modelled by
  an oracle `server : Request → HttpResult` that maps every issued request to
  either a successful response carrying a body or an HTTPError status code.
  Each client method also returns the list of requests it issued, so that the
  number and kind of HTTP round trips is visible in the model;
* the entry point `main`.  Argument parsing by AnsibleModule is external to the
  module (it guarantees the declared types of the six parameters and that
  state is one of present / absent), so `main` takes the validated values
  directly and returns the exit_json payload, or the uncaught error.
-/

namespace Dcm4chee

/-- A JSON value, as produced by the standard library parser. -/
inductive Json where
  | null : Json
  | bool : Bool → Json
  | int : Int → Json
  | str : String → Json
  | arr : List Json → Json
  | obj : List (String × Json) → Json

/-- Python dict subscript `j[key]`: defined only on objects holding the key. -/
def Json.getKey : Json → String → Option Json
  | Json.obj kvs, key => kvs.lookup key
  | _, _ => none

/-- Python list subscript `j[i]`: defined only on arrays that are long enough. -/
def Json.getIdx : Json → Nat → Option Json
  | Json.arr xs, i => xs.get? i
  | _, _ => none

/-- Extract a JSON string (the declared type of name, host and aetitle). -/
def Json.asStr : Json → Option String
  | Json.str s => some s
  | _ => none

/-- Extract a JSON integer (the declared type of port). -/
def Json.asInt : Json → Option Int
  | Json.int n => some n
  | _ => none

/-- The Device value object: `Device.__init__` stores exactly these four
attributes in `self.__dict__`. -/
structure Device where
  name : String
  host : String
  port : Int
  aetitle : String
deriving DecidableEq, Repr

/-- `Device.from_json`: reads `dicomDeviceName`, hostname and port of the first
`dicomNetworkConnection` entry, and the AE title of the first `dicomNetworkAE`
entry.  Every failing dict or array subscript (a KeyError / IndexError /
TypeError in Python) makes the whole parse fail, modelled as `none`. -/
def Device.from_json (data : Json) : Option Device :=
  match (data.getKey "dicomDeviceName").bind Json.asStr,
      (((data.getKey "dicomNetworkConnection").bind (fun c => c.getIdx 0)).bind
        (fun c0 => c0.getKey "dicomHostname")).bind Json.asStr,
      (((data.getKey "dicomNetworkConnection").bind (fun c => c.getIdx 0)).bind
        (fun c0 => c0.getKey "dicomPort")).bind Json.asInt,
      (((data.getKey "dicomNetworkAE").bind (fun a => a.getIdx 0)).bind
        (fun a0 => a0.getKey "dicomAETitle")).bind Json.asStr with
  | some name, some host, some port, some aetitle =>
    some { name := name, host := host, port := port, aetitle := aetitle }
  | _, _, _, _ => none

/-- `Device.to_json`: the fixed nested payload, with `dicomInstalled`,
`dicomAssociationInitiator` and `dicomAssociationAcceptor` always true and a
hard-coded connection reference. -/
def Device.to_json (d : Device) : Json :=
  Json.obj [
    ("dicomDeviceName", Json.str d.name),
    ("dicomInstalled", Json.bool true),
    ("dicomNetworkConnection", Json.arr [Json.obj [
      ("cn", Json.str "dicom"),
      ("dicomHostname", Json.str d.host),
      ("dicomPort", Json.int d.port)]]),
    ("dicomNetworkAE", Json.arr [Json.obj [
      ("dicomAETitle", Json.str d.aetitle),
      ("dicomAssociationInitiator", Json.bool true),
      ("dicomAssociationAcceptor", Json.bool true),
      ("dicomNetworkConnectionReference", Json.arr [
        Json.str "/dicomNetworkConnection/0"])]])]

/-- `Device.__eq__`: `self.__dict__ == other.__dict__`.  Both dicts hold
exactly the keys name, host, port, aetitle, so the dict comparison is the
pointwise comparison of the four attribute values. -/
def Device.eqDev (a b : Device) : Bool :=
  a.name == b.name && a.host == b.host && a.port == b.port &&
    a.aetitle == b.aetitle

/-- `Device.__ne__`: `not self.__eq__(other)`. -/
def Device.neDev (a b : Device) : Bool :=
  !(a.eqDev b)

/-- HTTP methods used by the client. -/
inductive Method where
  | GET : Method
  | POST : Method
  | PUT : Method
  | DELETE : Method
deriving DecidableEq, Repr

/-- A urllib2.Request as built by `DeviceAPI.__request__`: the target URL, an
optional JSON body, the (overridden) method, and the Content-Type header that
`__request__` always adds. -/
structure Request where
  url : String
  data : Option Json
  method : Method
  contentType : String

/-- The outcome of `urllib2.urlopen` on one request: a successful (2xx)
response whose `read()` yields `body`, or an `urllib2.HTTPError` carrying an
HTTP status code. -/
inductive HttpResult where
  | success : Json → HttpResult
  | error : Nat → HttpResult

/-- An error that escapes the module and fails the Ansible run: an uncaught
`urllib2.HTTPError` with its status code, or a KeyError / IndexError /
TypeError raised while parsing a response body in `Device.from_json`. -/
inductive ApiError where
  | http : Nat → ApiError
  | parse : ApiError
deriving DecidableEq, Repr

/-- The DeviceAPI client; `__init__` stores the resource URL. -/
structure DeviceAPI where
  url : String

/-- `DeviceAPI.__init__`: self.url is api_url followed by "devices", a slash
and the device name. -/
def DeviceAPI.init (api_url name : String) : DeviceAPI :=
  ⟨api_url ++ "devices" ++ "/" ++ name⟩

/-- `DeviceAPI.__request__`: builds the request against `self.url` with the
given body and method and the `Content-Type: application/json` header. -/
def DeviceAPI.request (api : DeviceAPI) (data : Option Json) (method : Method) :
    Request :=
  ⟨api.url, data, method, "application/json"⟩

/-- `DeviceAPI.__urlopen__`: performs the request; an HTTPError whose code
equals `ignore_error` is swallowed and yields `none`, every other HTTPError is
re-raised; a successful response is returned. -/
def DeviceAPI.urlopen (server : Request → HttpResult) (request : Request)
    (ignore_error : Option Nat) : Except Nat (Option Json) :=
  match server request with
  | HttpResult.success body => Except.ok (some body)
  | HttpResult.error code =>
    if ignore_error = some code then Except.ok none else Except.error code

/-- `DeviceAPI.create`: POST the serialized device, ignoring a 409 conflict;
returns True exactly when a response (not a swallowed error) came back.  The
second component is the list of requests issued. -/
def DeviceAPI.create (api : DeviceAPI) (server : Request → HttpResult)
    (device : Device) : Except ApiError Bool × List Request :=
  let request := api.request (some device.to_json) Method.POST
  (match DeviceAPI.urlopen server request (some 409) with
   | Except.ok response => Except.ok response.isSome
   | Except.error code => Except.error (ApiError.http code), [request])

/-- `DeviceAPI.read`: GET the resource, ignoring a 404; a response body is
parsed with `Device.from_json`, a swallowed 404 yields `none`. -/
def DeviceAPI.read (api : DeviceAPI) (server : Request → HttpResult) :
    Except ApiError (Option Device) × List Request :=
  let request := api.request none Method.GET
  (match DeviceAPI.urlopen server request (some 404) with
   | Except.ok (some body) =>
     match Device.from_json body with
     | some device => Except.ok (some device)
     | none => Except.error ApiError.parse
   | Except.ok none => Except.ok none
   | Except.error code => Except.error (ApiError.http code), [request])

/-- `DeviceAPI.update`: PUT the serialized device, ignoring a 404. -/
def DeviceAPI.update (api : DeviceAPI) (server : Request → HttpResult)
    (device : Device) : Except ApiError Bool × List Request :=
  let request := api.request (some device.to_json) Method.PUT
  (match DeviceAPI.urlopen server request (some 404) with
   | Except.ok response => Except.ok response.isSome
   | Except.error code => Except.error (ApiError.http code), [request])

/-- `DeviceAPI.delete`: DELETE with no body, ignoring a 404. -/
def DeviceAPI.delete (api : DeviceAPI) (server : Request → HttpResult) :
    Except ApiError Bool × List Request :=
  let request := api.request none Method.DELETE
  (match DeviceAPI.urlopen server request (some 404) with
   | Except.ok response => Except.ok response.isSome
   | Except.error code => Except.error (ApiError.http code), [request])

/-- The state parameter, restricted by AnsibleModule to its two choices. -/
inductive State where
  | present : State
  | absent : State
deriving DecidableEq, Repr

/-- The payload of `module.exit_json(name=name, state=state, changed=changed)`. -/
structure ModuleResult where
  name : String
  state : State
  changed : Bool
deriving DecidableEq, Repr

/-- The `main` entry point after argument validation: builds the client and the
expected device, reconciles according to `state`, and exits with the outcome.
The second component is the list of HTTP requests issued during the run. -/
def main (api_url name host : String) (port : Int) (aetitle : String)
    (state : State) (server : Request → HttpResult) :
    Except ApiError ModuleResult × List Request :=
  let api := DeviceAPI.init api_url name
  let expected_device : Device := ⟨name, host, port, aetitle⟩
  match state with
  | State.present =>
    match api.read server with
    | (Except.ok none, trace) =>
      match api.create server expected_device with
      | (Except.ok changed, trace2) =>
        (Except.ok ⟨name, state, changed⟩, trace ++ trace2)
      | (Except.error e, trace2) => (Except.error e, trace ++ trace2)
    | (Except.ok (some actual_device), trace) =>
      if actual_device.neDev expected_device then
        match api.update server expected_device with
        | (Except.ok changed, trace2) =>
          (Except.ok ⟨name, state, changed⟩, trace ++ trace2)
        | (Except.error e, trace2) => (Except.error e, trace ++ trace2)
      else
        (Except.ok ⟨name, state, false⟩, trace)
    | (Except.error e, trace) => (Except.error e, trace)
  | State.absent =>
    match api.delete server with
    | (Except.ok changed, trace) => (Except.ok ⟨name, state, changed⟩, trace)
    | (Except.error e, trace) => (Except.error e, trace)

/-! ## Helper lemmas shared by several results -/

/-- The Bool returned by the modelled `Device.__eq__` decides structural
equality of the two Device values. -/
theorem Device.eqDev_iff (a b : Device) : a.eqDev b = true ↔ a = b := by
  cases a
  cases b
  simp [Device.eqDev, Device.mk.injEq, and_assoc]

/-- `DeviceAPI.read` issues exactly one request. -/
theorem DeviceAPI.read_trace (api : DeviceAPI) (server : Request → HttpResult) :
    (api.read server).2 = [api.request none Method.GET] := rfl

/-- `DeviceAPI.create` issues exactly one request. -/
theorem DeviceAPI.create_trace (api : DeviceAPI) (server : Request → HttpResult)
    (device : Device) :
    (api.create server device).2 =
      [api.request (some device.to_json) Method.POST] := rfl

/-- `DeviceAPI.update` issues exactly one request. -/
theorem DeviceAPI.update_trace (api : DeviceAPI) (server : Request → HttpResult)
    (device : Device) :
    (api.update server device).2 =
      [api.request (some device.to_json) Method.PUT] := rfl

/-- `DeviceAPI.delete` issues exactly one request. -/
theorem DeviceAPI.delete_trace (api : DeviceAPI) (server : Request → HttpResult) :
    (api.delete server).2 = [api.request none Method.DELETE] := rfl

/-- If any of the four extracted components of the payload is missing,
`Device.from_json` fails. -/
theorem Device.from_json_eq_none_of_component (j : Json)
    (h : (j.getKey "dicomDeviceName").bind Json.asStr = none ∨
      (((j.getKey "dicomNetworkConnection").bind (fun c => c.getIdx 0)).bind
        (fun c0 => c0.getKey "dicomHostname")).bind Json.asStr = none ∨
      (((j.getKey "dicomNetworkConnection").bind (fun c => c.getIdx 0)).bind
        (fun c0 => c0.getKey "dicomPort")).bind Json.asInt = none ∨
      (((j.getKey "dicomNetworkAE").bind (fun a => a.getIdx 0)).bind
        (fun a0 => a0.getKey "dicomAETitle")).bind Json.asStr = none) :
    Device.from_json j = none := by
  unfold Device.from_json
  rcases h1 : (j.getKey "dicomDeviceName").bind Json.asStr with _ | n <;>
    rcases h2 : (((j.getKey "dicomNetworkConnection").bind
        (fun c => c.getIdx 0)).bind
        (fun c0 => c0.getKey "dicomHostname")).bind Json.asStr with _ | ho <;>
    rcases h3 : (((j.getKey "dicomNetworkConnection").bind
        (fun c => c.getIdx 0)).bind
        (fun c0 => c0.getKey "dicomPort")).bind Json.asInt with _ | p <;>
    rcases h4 : (((j.getKey "dicomNetworkAE").bind
        (fun a => a.getIdx 0)).bind
        (fun a0 => a0.getKey "dicomAETitle")).bind Json.asStr with _ | t <;>
    simp_all

/-! ## Claims about the Device value object -/

/-- C2: round-trip — for every Device d (any name, host, port, aetitle),
parsing the serialized payload back yields a Device structurally equal to d on
all four fields. -/
theorem from_json_to_json_round_trip (d : Device) :
    Device.from_json d.to_json = some d := rfl

/-- C7: Device equality is structural over exactly the four fields; changing
any single one of the four fields makes the two Devices unequal. -/
theorem device_eq_structural (a b : Device) :
    (a.eqDev b = true ↔
      a.name = b.name ∧ a.host = b.host ∧ a.port = b.port ∧
        a.aetitle = b.aetitle) ∧
    (a.eqDev b = true ↔ a = b) ∧
    (∀ x, x ≠ a.name → Device.eqDev ⟨x, a.host, a.port, a.aetitle⟩ a = false) ∧
    (∀ x, x ≠ a.host → Device.eqDev ⟨a.name, x, a.port, a.aetitle⟩ a = false) ∧
    (∀ x : Int, x ≠ a.port →
      Device.eqDev ⟨a.name, a.host, x, a.aetitle⟩ a = false) ∧
    (∀ x, x ≠ a.aetitle → Device.eqDev ⟨a.name, a.host, a.port, x⟩ a = false) := by
  refine ⟨?_, Device.eqDev_iff a b, ?_, ?_, ?_, ?_⟩
  · simp [Device.eqDev, and_assoc]
  · intro x h
    simp [Device.eqDev, h]
  · intro x h
    simp [Device.eqDev, h]
  · intro x h
    simp [Device.eqDev, h]
  · intro x h
    simp [Device.eqDev, h]

/-- C7 witness: the structural-equality characterization applied at concrete
Devices. -/
theorem device_eq_structural_witness :
    Device.eqDev ⟨"n", "h", 1, "a"⟩ ⟨"n", "h", 1, "a"⟩ = true ∧
    Device.eqDev ⟨"m", "h", 1, "a"⟩ ⟨"n", "h", 1, "a"⟩ = false ∧
    Device.eqDev ⟨"n", "h", 2, "a"⟩ ⟨"n", "h", 1, "a"⟩ = false :=
  ⟨((device_eq_structural ⟨"n", "h", 1, "a"⟩ ⟨"n", "h", 1, "a"⟩).2.1).mpr rfl,
   (device_eq_structural ⟨"n", "h", 1, "a"⟩ ⟨"n", "h", 1, "a"⟩).2.2.1 "m"
     (by decide),
   (device_eq_structural ⟨"n", "h", 1, "a"⟩ ⟨"n", "h", 1, "a"⟩).2.2.2.2.1 2
     (by decide)⟩

/-- C10: the modelled `Device.__ne__` is exactly the negation of the modelled
`Device.__eq__`; exactly one of the two comparisons is true for any pair. -/
theorem device_ne_negation (a b : Device) :
    (a.neDev b = !(a.eqDev b)) ∧
    (a.neDev b = true ↔ ¬ a.eqDev b = true) ∧
    (a.neDev b = true ∨ a.eqDev b = true) ∧
    ¬ (a.neDev b = true ∧ a.eqDev b = true) := by
  cases h : a.eqDev b <;> simp [Device.neDev, h]

/-- C10 witness: the negation law applied at concrete Devices. -/
theorem device_ne_negation_witness :
    Device.neDev ⟨"n", "h", 1, "a"⟩ ⟨"n", "h", 2, "a"⟩ =
      !(Device.eqDev ⟨"n", "h", 1, "a"⟩ ⟨"n", "h", 2, "a"⟩) :=
  (device_ne_negation ⟨"n", "h", 1, "a"⟩ ⟨"n", "h", 2, "a"⟩).1

/-- C6: for every JSON input in which a required field is missing or the
connection array or application-entity array is empty, `Device.from_json`
does not return a Device but fails. -/
theorem malformed_parse_fails (j : Json)
    (h : j.getKey "dicomDeviceName" = none ∨
      j.getKey "dicomNetworkConnection" = none ∨
      j.getKey "dicomNetworkConnection" = some (Json.arr []) ∨
      (∃ c0, (j.getKey "dicomNetworkConnection").bind (fun c => c.getIdx 0) =
          some c0 ∧ c0.getKey "dicomHostname" = none) ∨
      (∃ c0, (j.getKey "dicomNetworkConnection").bind (fun c => c.getIdx 0) =
          some c0 ∧ c0.getKey "dicomPort" = none) ∨
      j.getKey "dicomNetworkAE" = none ∨
      j.getKey "dicomNetworkAE" = some (Json.arr []) ∨
      (∃ a0, (j.getKey "dicomNetworkAE").bind (fun a => a.getIdx 0) =
          some a0 ∧ a0.getKey "dicomAETitle" = none)) :
    Device.from_json j = none := by
  apply Device.from_json_eq_none_of_component
  rcases h with h | h | h | ⟨c0, hc, h⟩ | ⟨c0, hc, h⟩ | h | h | ⟨a0, ha, h⟩
  · exact Or.inl (by simp [h])
  · exact Or.inr (Or.inl (by simp [h]))
  · exact Or.inr (Or.inl (by simp [h, Json.getIdx]))
  · exact Or.inr (Or.inl (by simp [hc, h]))
  · exact Or.inr (Or.inr (Or.inl (by simp [hc, h])))
  · exact Or.inr (Or.inr (Or.inr (by simp [h])))
  · exact Or.inr (Or.inr (Or.inr (by simp [h, Json.getIdx])))
  · exact Or.inr (Or.inr (Or.inr (by simp [ha, h])))

/-- C6 witness: parsing fails on an empty object (all keys missing) and on a
payload whose connection array is empty. -/
theorem malformed_parse_fails_witness :
    Device.from_json (Json.obj []) = none ∧
    Device.from_json (Json.obj [("dicomDeviceName", Json.str "n"),
      ("dicomNetworkConnection", Json.arr [])]) = none :=
  ⟨malformed_parse_fails (Json.obj []) (Or.inl rfl),
   malformed_parse_fails _ (Or.inr (Or.inr (Or.inl rfl)))⟩

/-- C9: parsing depends only on the device name, the first connection entry
hostname and port, and the first application-entity AE title: two parseable
payloads that agree on those four values parse to structurally equal Devices,
regardless of flags, references or further array entries. -/
theorem parse_depends_only_on_four_values (j j' : Json) (d d' : Device)
    (h1 : Device.from_json j = some d) (h2 : Device.from_json j' = some d')
    (hn : j.getKey "dicomDeviceName" = j'.getKey "dicomDeviceName")
    (hh : ((j.getKey "dicomNetworkConnection").bind (fun c => c.getIdx 0)).bind
        (fun c0 => c0.getKey "dicomHostname") =
      ((j'.getKey "dicomNetworkConnection").bind (fun c => c.getIdx 0)).bind
        (fun c0 => c0.getKey "dicomHostname"))
    (hp : ((j.getKey "dicomNetworkConnection").bind (fun c => c.getIdx 0)).bind
        (fun c0 => c0.getKey "dicomPort") =
      ((j'.getKey "dicomNetworkConnection").bind (fun c => c.getIdx 0)).bind
        (fun c0 => c0.getKey "dicomPort"))
    (ht : ((j.getKey "dicomNetworkAE").bind (fun a => a.getIdx 0)).bind
        (fun a0 => a0.getKey "dicomAETitle") =
      ((j'.getKey "dicomNetworkAE").bind (fun a => a.getIdx 0)).bind
        (fun a0 => a0.getKey "dicomAETitle")) :
    d = d' := by
  have e : Device.from_json j = Device.from_json j' := by
    unfold Device.from_json
    rw [hn, hh, hp, ht]
  rw [h1, h2] at e
  exact Option.some.inj e

/-- A server response carrying the same four values as the payload serialized
from Device ⟨n, h, 1, a⟩, but with different flags, an extra connection entry,
an extra application-entity entry, and no connection reference. -/
def richPayload : Json :=
  Json.obj [
    ("dicomDeviceName", Json.str "n"),
    ("dicomInstalled", Json.bool false),
    ("dicomNetworkConnection", Json.arr [
      Json.obj [("dicomHostname", Json.str "h"), ("dicomPort", Json.int 1)],
      Json.obj [("dicomHostname", Json.str "other"), ("dicomPort", Json.int 9)]]),
    ("dicomNetworkAE", Json.arr [
      Json.obj [("dicomAETitle", Json.str "a"),
        ("dicomAssociationInitiator", Json.bool false),
        ("dicomAssociationAcceptor", Json.bool false)],
      Json.obj [("dicomAETitle", Json.str "z")]])]

/-- C9 witness: the serialized payload of Device ⟨n, h, 1, a⟩ and the quite
different `richPayload` agree on the four extracted values and parse to the
same Device. -/
theorem parse_depends_only_on_four_values_witness :
    Device.from_json (Device.to_json ⟨"n", "h", 1, "a"⟩) =
      some ⟨"n", "h", 1, "a"⟩ ∧
    Device.from_json richPayload = some ⟨"n", "h", 1, "a"⟩ ∧
    (⟨"n", "h", 1, "a"⟩ : Device) = ⟨"n", "h", 1, "a"⟩ :=
  ⟨rfl, rfl,
   parse_depends_only_on_four_values (Device.to_json ⟨"n", "h", 1, "a"⟩)
     richPayload ⟨"n", "h", 1, "a"⟩ ⟨"n", "h", 1, "a"⟩ rfl rfl rfl rfl rfl rfl⟩

/-! ## Claims about the DeviceAPI client -/

/-- C4: `DeviceAPI.read` issues a GET to the resource URL; a success response
body is parsed into a Device and returned; a 404 yields the absent value
`none` without an error; any other HTTP error status propagates. -/
theorem read_get_semantics (api_url name : String)
    (server : Request → HttpResult) :
    ((DeviceAPI.init api_url name).read server).2 =
      [(DeviceAPI.init api_url name).request none Method.GET] ∧
    (∀ body d,
      server ((DeviceAPI.init api_url name).request none Method.GET) =
        HttpResult.success body →
      Device.from_json body = some d →
      ((DeviceAPI.init api_url name).read server).1 = Except.ok (some d)) ∧
    (server ((DeviceAPI.init api_url name).request none Method.GET) =
        HttpResult.error 404 →
      ((DeviceAPI.init api_url name).read server).1 = Except.ok none) ∧
    (∀ code, code ≠ 404 →
      server ((DeviceAPI.init api_url name).request none Method.GET) =
        HttpResult.error code →
      ((DeviceAPI.init api_url name).read server).1 =
        Except.error (ApiError.http code)) := by
  refine ⟨rfl, ?_, ?_, ?_⟩
  · intro body d hs hd
    simp [DeviceAPI.read, DeviceAPI.urlopen, hs, hd]
  · intro hs
    simp [DeviceAPI.read, DeviceAPI.urlopen, hs]
  · intro code hne hs
    have hni : ¬ (some 404 = some code) := by
      simp [Ne.symm hne]
    simp [DeviceAPI.read, DeviceAPI.urlopen, hs, hni]

/-- C4 witness: read on a server answering with a device payload, on a server
answering 404, and on a server answering 500. -/
theorem read_get_semantics_witness :
    ((DeviceAPI.init "u/" "n").read
      (fun _ => HttpResult.success (Device.to_json ⟨"n", "h", 1, "a"⟩))).1 =
      Except.ok (some ⟨"n", "h", 1, "a"⟩) ∧
    ((DeviceAPI.init "u/" "n").read (fun _ => HttpResult.error 404)).1 =
      Except.ok none ∧
    ((DeviceAPI.init "u/" "n").read (fun _ => HttpResult.error 500)).1 =
      Except.error (ApiError.http 500) :=
  ⟨(read_get_semantics "u/" "n"
      (fun _ => HttpResult.success (Device.to_json ⟨"n", "h", 1, "a"⟩))).2.1
      (Device.to_json ⟨"n", "h", 1, "a"⟩) ⟨"n", "h", 1, "a"⟩ rfl rfl,
   (read_get_semantics "u/" "n" (fun _ => HttpResult.error 404)).2.2.1 rfl,
   (read_get_semantics "u/" "n" (fun _ => HttpResult.error 500)).2.2.2 500
     (by decide) rfl⟩

/-- C5: `DeviceAPI.create` issues a POST with the serialized device payload;
a success returns true; a 409 conflict returns false without an error; any
other HTTP error status propagates. -/
theorem create_post_semantics (api_url name : String)
    (server : Request → HttpResult) (device : Device) :
    ((DeviceAPI.init api_url name).create server device).2 =
      [(DeviceAPI.init api_url name).request (some device.to_json)
        Method.POST] ∧
    (∀ body,
      server ((DeviceAPI.init api_url name).request (some device.to_json)
          Method.POST) = HttpResult.success body →
      ((DeviceAPI.init api_url name).create server device).1 =
        Except.ok true) ∧
    (server ((DeviceAPI.init api_url name).request (some device.to_json)
        Method.POST) = HttpResult.error 409 →
      ((DeviceAPI.init api_url name).create server device).1 =
        Except.ok false) ∧
    (∀ code, code ≠ 409 →
      server ((DeviceAPI.init api_url name).request (some device.to_json)
        Method.POST) = HttpResult.error code →
      ((DeviceAPI.init api_url name).create server device).1 =
        Except.error (ApiError.http code)) := by
  refine ⟨rfl, ?_, ?_, ?_⟩
  · intro body hs
    simp [DeviceAPI.create, DeviceAPI.urlopen, hs]
  · intro hs
    simp [DeviceAPI.create, DeviceAPI.urlopen, hs]
  · intro code hne hs
    have hni : ¬ (some 409 = some code) := by
      simp [Ne.symm hne]
    simp [DeviceAPI.create, DeviceAPI.urlopen, hs, hni]

/-- C5 witness: create against a succeeding server, a conflicting server, and
a failing server. -/
theorem create_post_semantics_witness :
    ((DeviceAPI.init "u/" "n").create (fun _ => HttpResult.success Json.null)
      ⟨"n", "h", 1, "a"⟩).1 = Except.ok true ∧
    ((DeviceAPI.init "u/" "n").create (fun _ => HttpResult.error 409)
      ⟨"n", "h", 1, "a"⟩).1 = Except.ok false ∧
    ((DeviceAPI.init "u/" "n").create (fun _ => HttpResult.error 500)
      ⟨"n", "h", 1, "a"⟩).1 = Except.error (ApiError.http 500) :=
  ⟨(create_post_semantics "u/" "n" (fun _ => HttpResult.success Json.null)
      ⟨"n", "h", 1, "a"⟩).2.1 Json.null rfl,
   (create_post_semantics "u/" "n" (fun _ => HttpResult.error 409)
      ⟨"n", "h", 1, "a"⟩).2.2.1 rfl,
   (create_post_semantics "u/" "n" (fun _ => HttpResult.error 500)
      ⟨"n", "h", 1, "a"⟩).2.2.2 500 (by decide) rfl⟩

/-! ## Branch equations of the entry point -/

/-- With state absent, `main` unconditionally delegates to delete. -/
theorem main_absent_eq (api_url name host : String) (port : Int)
    (aetitle : String) (server : Request → HttpResult) :
    main api_url name host port aetitle State.absent server =
      (((DeviceAPI.init api_url name).delete server).1.map
        (fun changed => ⟨name, State.absent, changed⟩),
       ((DeviceAPI.init api_url name).delete server).2) := by
  cases hd : (DeviceAPI.init api_url name).delete server with
  | mk r t => cases r <;> simp [main, hd, Except.map]

/-- With state present and an absent actual device, `main` delegates to
create. -/
theorem main_present_read_none (api_url name host : String) (port : Int)
    (aetitle : String) (server : Request → HttpResult)
    (h : ((DeviceAPI.init api_url name).read server).1 = Except.ok none) :
    main api_url name host port aetitle State.present server =
      (((DeviceAPI.init api_url name).create server
          ⟨name, host, port, aetitle⟩).1.map
        (fun changed => ⟨name, State.present, changed⟩),
       ((DeviceAPI.init api_url name).read server).2 ++
         ((DeviceAPI.init api_url name).create server
           ⟨name, host, port, aetitle⟩).2) := by
  cases hr : (DeviceAPI.init api_url name).read server with
  | mk r t =>
    rw [hr] at h
    simp only [] at h
    subst h
    cases hc : (DeviceAPI.init api_url name).create server
        ⟨name, host, port, aetitle⟩ with
    | mk c t2 => cases c <;> simp [main, hr, hc, Except.map]

/-- With state present and a fetched device different from the desired one,
`main` delegates to update. -/
theorem main_present_read_some_ne (api_url name host : String) (port : Int)
    (aetitle : String) (server : Request → HttpResult) (d : Device)
    (h : ((DeviceAPI.init api_url name).read server).1 = Except.ok (some d))
    (hne : d ≠ ⟨name, host, port, aetitle⟩) :
    main api_url name host port aetitle State.present server =
      (((DeviceAPI.init api_url name).update server
          ⟨name, host, port, aetitle⟩).1.map
        (fun changed => ⟨name, State.present, changed⟩),
       ((DeviceAPI.init api_url name).read server).2 ++
         ((DeviceAPI.init api_url name).update server
           ⟨name, host, port, aetitle⟩).2) := by
  have hb : d.eqDev ⟨name, host, port, aetitle⟩ = false := by
    cases hcb : d.eqDev ⟨name, host, port, aetitle⟩
    · rfl
    · exact absurd ((Device.eqDev_iff d ⟨name, host, port, aetitle⟩).mp hcb) hne
  cases hr : (DeviceAPI.init api_url name).read server with
  | mk r t =>
    rw [hr] at h
    simp only [] at h
    subst h
    cases hu : (DeviceAPI.init api_url name).update server
        ⟨name, host, port, aetitle⟩ with
    | mk c t2 =>
      cases c <;> simp [main, hr, hu, Device.neDev, hb, Except.map]

/-- With state present and a fetched device equal to the desired one, `main`
issues no write and reports no change. -/
theorem main_present_read_some_eq (api_url name host : String) (port : Int)
    (aetitle : String) (server : Request → HttpResult) (d : Device)
    (h : ((DeviceAPI.init api_url name).read server).1 = Except.ok (some d))
    (heq : d = ⟨name, host, port, aetitle⟩) :
    main api_url name host port aetitle State.present server =
      (Except.ok ⟨name, State.present, false⟩,
       ((DeviceAPI.init api_url name).read server).2) := by
  have hb : d.eqDev ⟨name, host, port, aetitle⟩ = true :=
    (Device.eqDev_iff d ⟨name, host, port, aetitle⟩).mpr heq
  cases hr : (DeviceAPI.init api_url name).read server with
  | mk r t =>
    rw [hr] at h
    simp only [] at h
    subst h
    simp [main, hr, Device.neDev, hb]

/-- With state present and a failing read, `main` propagates the error and
issues no further request. -/
theorem main_present_read_error (api_url name host : String) (port : Int)
    (aetitle : String) (server : Request → HttpResult) (e : ApiError)
    (h : ((DeviceAPI.init api_url name).read server).1 = Except.error e) :
    main api_url name host port aetitle State.present server =
      (Except.error e, ((DeviceAPI.init api_url name).read server).2) := by
  cases hr : (DeviceAPI.init api_url name).read server with
  | mk r t =>
    rw [hr] at h
    simp only [] at h
    subst h
    simp [main, hr]

/-! ## Claims about the reconciliation entry point -/

/-- C1: with state present — if the fetch yields absent, `main` calls create
and reports that return value; if a device is fetched and differs from the
desired one, `main` calls update and reports that return value; if the fetched
device equals the desired one, no write is issued and changed is false. -/
theorem present_reconcile (api_url name host : String) (port : Int)
    (aetitle : String) (server : Request → HttpResult) :
    (((DeviceAPI.init api_url name).read server).1 = Except.ok none →
      main api_url name host port aetitle State.present server =
        (((DeviceAPI.init api_url name).create server
            ⟨name, host, port, aetitle⟩).1.map
          (fun changed => ⟨name, State.present, changed⟩),
         ((DeviceAPI.init api_url name).read server).2 ++
           ((DeviceAPI.init api_url name).create server
             ⟨name, host, port, aetitle⟩).2)) ∧
    (∀ d, ((DeviceAPI.init api_url name).read server).1 =
        Except.ok (some d) →
      d ≠ ⟨name, host, port, aetitle⟩ →
      main api_url name host port aetitle State.present server =
        (((DeviceAPI.init api_url name).update server
            ⟨name, host, port, aetitle⟩).1.map
          (fun changed => ⟨name, State.present, changed⟩),
         ((DeviceAPI.init api_url name).read server).2 ++
           ((DeviceAPI.init api_url name).update server
             ⟨name, host, port, aetitle⟩).2)) ∧
    (∀ d, ((DeviceAPI.init api_url name).read server).1 =
        Except.ok (some d) →
      d = ⟨name, host, port, aetitle⟩ →
      main api_url name host port aetitle State.present server =
        (Except.ok ⟨name, State.present, false⟩,
         [(DeviceAPI.init api_url name).request none Method.GET])) :=
  ⟨fun h => main_present_read_none api_url name host port aetitle server h,
   fun d h hne =>
     main_present_read_some_ne api_url name host port aetitle server d h hne,
   fun d h heq => by
     rw [main_present_read_some_eq api_url name host port aetitle server d h
       heq, DeviceAPI.read_trace]⟩

/-- A server on which the device is initially absent: GET fails with 404 and
every write succeeds. -/
def serverInitiallyAbsent : Request → HttpResult := fun r =>
  match r.method with
  | Method.GET => HttpResult.error 404
  | _ => HttpResult.success Json.null

/-- A server that answers every request with a success response whose body is
the payload of Device ⟨n, h, 1, a⟩. -/
def serverHolding : Request → HttpResult := fun _ =>
  HttpResult.success (Device.to_json ⟨"n", "h", 1, "a"⟩)

/-- A server that answers every request with 404. -/
def serverAlways404 : Request → HttpResult := fun _ =>
  HttpResult.error 404

/-- C1 witness: the three present-state branches at concrete inputs — a
missing device is created (changed true), a device with a different port is
updated (changed true), a matching device causes no write (changed false). -/
theorem present_reconcile_witness :
    (main "u/" "n" "h" 1 "a" State.present serverInitiallyAbsent).1 =
      Except.ok ⟨"n", State.present, true⟩ ∧
    (main "u/" "n" "h" 2 "a" State.present serverHolding).1 =
      Except.ok ⟨"n", State.present, true⟩ ∧
    main "u/" "n" "h" 1 "a" State.present serverHolding =
      (Except.ok ⟨"n", State.present, false⟩,
       [(DeviceAPI.init "u/" "n").request none Method.GET]) :=
  ⟨by
     rw [(present_reconcile "u/" "n" "h" 1 "a" serverInitiallyAbsent).1 rfl]
     rfl,
   by
     rw [(present_reconcile "u/" "n" "h" 2 "a" serverHolding).2.1
       ⟨"n", "h", 1, "a"⟩ rfl (by decide)]
     rfl,
   (present_reconcile "u/" "n" "h" 1 "a" serverHolding).2.2
     ⟨"n", "h", 1, "a"⟩ rfl rfl⟩

/-- C3: with state absent, `main` unconditionally calls delete and reports its
return value: true on a success response, false on a 404, with no error in the
404 case. -/
theorem absent_reconcile (api_url name host : String) (port : Int)
    (aetitle : String) (server : Request → HttpResult) :
    (main api_url name host port aetitle State.absent server =
      (((DeviceAPI.init api_url name).delete server).1.map
        (fun changed => ⟨name, State.absent, changed⟩),
       ((DeviceAPI.init api_url name).delete server).2)) ∧
    (∀ body,
      server ((DeviceAPI.init api_url name).request none Method.DELETE) =
        HttpResult.success body →
      ((DeviceAPI.init api_url name).delete server).1 = Except.ok true) ∧
    (server ((DeviceAPI.init api_url name).request none Method.DELETE) =
        HttpResult.error 404 →
      ((DeviceAPI.init api_url name).delete server).1 = Except.ok false) := by
  refine ⟨main_absent_eq api_url name host port aetitle server, ?_, ?_⟩
  · intro body hs
    simp [DeviceAPI.delete, DeviceAPI.urlopen, hs]
  · intro hs
    simp [DeviceAPI.delete, DeviceAPI.urlopen, hs]

/-- C3 witness: deleting a held device reports changed true; deleting an
already absent device reports changed false with no error. -/
theorem absent_reconcile_witness :
    ((DeviceAPI.init "u/" "n").delete serverHolding).1 = Except.ok true ∧
    (main "u/" "n" "h" 1 "a" State.absent serverAlways404) =
      (Except.ok ⟨"n", State.absent, false⟩,
       [(DeviceAPI.init "u/" "n").request none Method.DELETE]) :=
  ⟨(absent_reconcile "u/" "n" "h" 1 "a" serverHolding).2.1
     (Device.to_json ⟨"n", "h", 1, "a"⟩) rfl,
   by
     rw [(absent_reconcile "u/" "n" "h" 1 "a" serverAlways404).1]
     rfl⟩

/-- Is this request a read (GET)? -/
def Request.isRead (r : Request) : Bool :=
  match r.method with
  | Method.GET => true
  | _ => false

/-- Is this request a write (POST, PUT or DELETE)? -/
def Request.isWrite (r : Request) : Bool :=
  match r.method with
  | Method.POST => true
  | Method.PUT => true
  | Method.DELETE => true
  | Method.GET => false

/-- C8: every run issues at most two HTTP requests: at most one GET and at
most one of POST / PUT / DELETE, for either state and any server responses. -/
theorem at_most_two_requests (api_url name host : String) (port : Int)
    (aetitle : String) (state : State) (server : Request → HttpResult) :
    (main api_url name host port aetitle state server).2.countP
        Request.isRead ≤ 1 ∧
    (main api_url name host port aetitle state server).2.countP
        Request.isWrite ≤ 1 ∧
    (main api_url name host port aetitle state server).2.length ≤ 2 := by
  cases state
  case absent =>
    rw [main_absent_eq api_url name host port aetitle server]
    simp [DeviceAPI.delete_trace, DeviceAPI.request, Request.isRead,
      Request.isWrite]
  case present =>
    rcases hr : ((DeviceAPI.init api_url name).read server).1 with e | od
    · rw [main_present_read_error api_url name host port aetitle server e hr]
      simp [DeviceAPI.read_trace, DeviceAPI.request, Request.isRead,
        Request.isWrite]
    · rcases od with _ | d
      · rw [main_present_read_none api_url name host port aetitle server hr]
        simp [DeviceAPI.read_trace, DeviceAPI.create_trace, DeviceAPI.request,
          Request.isRead, Request.isWrite]
      · by_cases hd : d = (⟨name, host, port, aetitle⟩ : Device)
        · rw [main_present_read_some_eq api_url name host port aetitle server
            d hr hd]
          simp [DeviceAPI.read_trace, DeviceAPI.request, Request.isRead,
            Request.isWrite]
        · rw [main_present_read_some_ne api_url name host port aetitle server
            d hr hd]
          simp [DeviceAPI.read_trace, DeviceAPI.update_trace,
            DeviceAPI.request, Request.isRead, Request.isWrite]

end Dcm4chee
